import Mathlib

set_option maxRecDepth 8000

/-!
Shallow embedding of the Central Supply Handoff client.

The repository contains three near-duplicate page variants:
* `Page` embeds `src/app/app/page.tsx` (the "v3.1" variant before the document
  separator; the second variant after the separator shares every definition
  embedded here except that its store query for handoffs delegates the sort to
  the store and its resolved-index query adds an `order by created_at desc`
  clause, which is the query embedded in `resolvedIndexQuery`).
* `FullSys` embeds `src/unnamed/part_000` (the denormalized `status` variant).

Timestamps: the source stores `created_at` as an ISO string and compares
`new Date(s).getTime()` (page.tsx) or `Date.parse(s)` (part_000).  We embed
the *result* of that parse: `Option Int` with `none` standing for NaN
(missing or unparseable), `some t` for a finite millisecond value.  For update
rows, only the store-side `order by created_at` matters, so their timestamp is
embedded directly as an `Int`.
-/

namespace CentralSupply

/-! JS string helpers.  The source normalizes strings with
`String.prototype.trim` and `String.prototype.toLowerCase` (and Postgres
lower-cases both sides of an `ilike`).  We embed these over the character
list of a `String`. -/

/-- `s.toLowerCase()` as a character list. -/
def jsToLower (s : String) : List Char := s.data.map Char.toLower

/-- Strip leading and trailing whitespace from a character list. -/
def trimData (l : List Char) : List Char :=
  ((l.dropWhile Char.isWhitespace).reverse.dropWhile Char.isWhitespace).reverse

/-- `s.trim()`. -/
def jsTrim (s : String) : String := String.mk (trimData s.data)

inductive Shift
  | AM
  | PM
  | NOC
deriving DecidableEq

inductive Priority
  | Low
  | Normal
  | High
  | Critical
deriving DecidableEq

inductive UpdateSource
  | app
  | sms
  | system
deriving DecidableEq

namespace Page

/-- `type Handoff` of page.tsx: the row shape selected from `handoffs`.
`created_at_ms` is the JS parse of the stored `created_at` string. -/
structure Handoff where
  id : String
  created_at_ms : Option Int
  shift : Shift
  location : String
  priority : Priority
  summary : String
  details : Option String
  needs_follow_up : Bool
deriving DecidableEq

/-- `type HandoffUpdate` of page.tsx: a row of `handoff_updates`.
`created_at_ms` is the store timestamp used by `order by created_at`. -/
structure HandoffUpdate where
  id : String
  created_at_ms : Int
  handoff_id : String
  author_user_id : String
  author_display_name_snapshot : Option String
  source : UpdateSource
  content : String
deriving DecidableEq

/-- The `rank` record of page.tsx: `Critical: 4, High: 3, Normal: 2, Low: 1`.
(The source reads `rank[p] ?? 0`; `Priority` is a closed union, so the `?? 0`
fallback is unreachable.) -/
def rank : Priority → Int
  | .Critical => 4
  | .High => 3
  | .Normal => 2
  | .Low => 1

/-- JS subtraction on possibly-NaN numbers: NaN propagates. -/
def jsSub : Option Int → Option Int → Option Int
  | some a, some b => some (a - b)
  | _, _ => none

/-- The comparator passed to `rows.sort` in `loadHandoffs` (page.tsx lines
297-306): follow-up first, then priority rank, then newest.  The result is a
JS number and may be NaN when a `created_at` fails to parse. -/
def handoffCompare (a b : Handoff) : Option Int :=
  let fu : Int := (if b.needs_follow_up then 1 else 0) -
    (if a.needs_follow_up then 1 else 0)
  if fu ≠ 0 then some fu
  else
    let pr : Int := rank b.priority - rank a.priority
    if pr ≠ 0 then some pr
    else jsSub b.created_at_ms a.created_at_ms

/-- ECMAScript `SortCompare`: a NaN comparator result is treated as `+0`. -/
def sortCompare (a b : Handoff) : Int :=
  (handoffCompare a b).getD 0

def pageOrder (a b : Handoff) : Prop := sortCompare a b ≤ 0

instance : DecidableRel pageOrder := fun _ _ => Int.decLe _ _

/-- The client-side sort applied to the selected rows in `loadHandoffs`.
JS `Array.prototype.sort` is stable; a stable sort of a consistent comparator
is modelled by insertion sort. -/
def sortHandoffs (rows : List Handoff) : List Handoff :=
  rows.insertionSort pageOrder

/-- `ilike("content", "Marked as resolved%")`: Postgres `ilike` is a
case-insensitive pattern match, here a case-insensitive prefix test. -/
def matchesSentinel (content : String) : Bool :=
  ("marked as resolved").data.isPrefixOf (jsToLower content)

/-- The row filter of the resolved-index query:
`.in("handoff_id", handoffIds).eq("source", "system").ilike("content", ...)`. -/
def resolvedRowMatches (ids : List String) (r : HandoffUpdate) : Bool :=
  ids.contains r.handoff_id && r.source == UpdateSource.system &&
    matchesSentinel r.content

/-- `order by created_at descending` (newest first). -/
def newerFirst (a b : HandoffUpdate) : Prop :=
  b.created_at_ms ≤ a.created_at_ms

instance : DecidableRel newerFirst := fun _ _ => Int.decLe _ _

/-- The batched resolved-index store query of `loadResolvedIndex`: filter to
the given handoff ids, system source and sentinel prefix, order newest first,
`limit(500)`.  (The first page variant omits the `order` clause and caps at a
store-chosen 500; the second page variant is embedded here.) -/
def resolvedIndexQuery (ids : List String) (store : List HandoffUpdate) :
    List HandoffUpdate :=
  ((store.filter (resolvedRowMatches ids)).insertionSort newerFirst).take 500

/-- The derived set of resolved ids: `handoff_id` of every returned row. -/
def resolvedIdsOf (rows : List HandoffUpdate) : List String :=
  rows.map (·.handoff_id)

/-- Substring test used by the location filter: JS `s.includes(sub)`. -/
def jsIncludes (s sub : List Char) : Bool :=
  decide (sub <:+: s)

/-- The `filtered` memo of page.tsx (lines 475-493): the follow-up filter and
the location filter, ANDed.  `resolvedIds` is the derived resolved index.
`locQ` is `locationFilter.trim().toLowerCase()`; an empty `locQ` is falsy in
JS, so the location test is skipped. -/
def filteredKeep (followUpOnly : Bool) (locationFilter : String)
    (resolvedIds : List String) (h : Handoff) : Bool :=
  let isResolved := resolvedIds.contains h.id
  if followUpOnly && isResolved then false
  else if followUpOnly && !h.needs_follow_up then false
  else
    let locQ := (trimData locationFilter.data).map Char.toLower
    if locQ != [] then jsIncludes (jsToLower h.location) locQ
    else true

/-- `displayName?.trim() || null`: the snapshot written on every update
insert: the trimmed display name, or null when the trimmed name is empty
(JS `||` sends the falsy empty string to `null`). -/
def snapshotOf (displayName : String) : Option String :=
  let t := jsTrim displayName
  if t == "" then none else some t

/-- The insert payload shape for `handoff_updates` (server assigns id and
created_at). -/
structure UpdateInsert where
  handoff_id : String
  author_user_id : String
  author_display_name_snapshot : Option String
  source : UpdateSource
  content : String
deriving DecidableEq

/-- The insert performed by `markResolved`. -/
def markResolvedPayload (displayName userId handoffId : String) : UpdateInsert :=
  { handoff_id := handoffId
    author_user_id := userId
    author_display_name_snapshot := snapshotOf displayName
    source := UpdateSource.system
    content := "Marked as resolved" }

/-- The insert performed by `addUpdate`. -/
def addUpdatePayload (displayName userId selectedId newUpdate : String) :
    UpdateInsert :=
  { handoff_id := selectedId
    author_user_id := userId
    author_display_name_snapshot := snapshotOf displayName
    source := UpdateSource.app
    content := jsTrim newUpdate }

/-- An error value thrown by the external service.  `isAbort` abstracts the
duck-typed `isAbortError` test of the source (name `AbortError`, message
containing `aborted`, or code `ERR_ABORTED`). -/
structure Err where
  msg : String
  isAbort : Bool
deriving DecidableEq

def isAbortError (e : Err) : Bool := e.isAbort

/-- One call across the client/service boundary (auth or store). -/
inductive NetCall
  | authGetUser
  | selectHandoffs
  | selectResolvedIndex (ids : List String)
  | selectUpdates (handoffId : String)
  | insertHandoff
  | insertUpdate
deriving DecidableEq

/-- The external environment a load/write runs against: the outcome of each
boundary call the source can make. -/
structure Env where
  /-- Result of `supabase.auth.getUser()`: an error, or the signed-in user id
  (`none` when not authenticated). -/
  userResult : Except Err (Option String)
  /-- Result of `from("handoffs").select("*")`. -/
  handoffRows : Except Err (List Handoff)
  /-- Contents of the `handoff_updates` table, queried by the resolved index. -/
  updateStore : List HandoffUpdate
  /-- Injected failure of the batched resolved-index lookup (`none` = success). -/
  resolvedIndexErr : Option Err
  /-- Injected failure of `from("handoffs").insert(payload)`. -/
  insertHandoffErr : Option Err

/-- The client state the claims are about. -/
structure ClientState where
  handoffs : List Handoff
  resolvedIds : List String
deriving DecidableEq

/-- Result of running a loader or action: the boundary calls it made, the
client state it left behind, and the blocking `alert(...)` it raised, if any
(`console.warn` diagnostics are not alerts). -/
structure RunOut where
  calls : List NetCall
  state : ClientState
  alert : Option String
deriving DecidableEq

/-- `loadResolvedIndex(handoffIds)`: empty input short-circuits with an empty
set and no query; a store error degrades to the empty set with only a
`console.warn`; otherwise the derived set is built from the batched query. -/
def loadResolvedIndex (env : Env) (handoffIds : List String) :
    List NetCall × List String × Option String :=
  if handoffIds.isEmpty then ([], [], none)
  else
    match env.resolvedIndexErr with
    | some _ => ([NetCall.selectResolvedIndex handoffIds], [], none)
    | none =>
        ([NetCall.selectResolvedIndex handoffIds],
          resolvedIdsOf (resolvedIndexQuery handoffIds env.updateStore), none)

/-- `loadHandoffs()`: auth guard, select, client sort, then the resolved-index
derivation.  `setHandoffs(rows)` happens before `loadResolvedIndex` is
awaited, so a resolved-index failure leaves the sorted rows in place. -/
def loadHandoffs (env : Env) (st : ClientState) : RunOut :=
  match env.userResult with
  | .error e =>
      { calls := [NetCall.authGetUser], state := st
        alert := if isAbortError e then none
          else some ("Error loading handoffs:\n" ++ e.msg) }
  | .ok none =>
      { calls := [NetCall.authGetUser]
        state := { handoffs := [], resolvedIds := [] }, alert := none }
  | .ok (some _) =>
      match env.handoffRows with
      | .error e =>
          { calls := [NetCall.authGetUser, NetCall.selectHandoffs], state := st
            alert := if isAbortError e then none
              else some ("Error loading handoffs:\n" ++ e.msg) }
      | .ok data =>
          let rows := sortHandoffs data
          let ri := loadResolvedIndex env (rows.map (·.id))
          { calls := [NetCall.authGetUser, NetCall.selectHandoffs] ++ ri.1
            state := { handoffs := rows, resolvedIds := ri.2.1 }
            alert := ri.2.2 }

/-- The create-form fields read by `createHandoff`. -/
structure CreateForm where
  shift : Shift
  location : String
  priority : Priority
  summary : String
  details : String
  needs_follow_up : Bool

/-- `createHandoff()`: validate the trimmed summary before anything else,
then look the user up, then insert and reload.  The summary check happens
before any boundary call; the auth check is itself a boundary call. -/
def createHandoff (env : Env) (st : ClientState) (form : CreateForm) : RunOut :=
  if jsTrim form.summary == "" then
    { calls := [], state := st, alert := some "Summary is required." }
  else
    match env.userResult with
    | .error e =>
        { calls := [NetCall.authGetUser], state := st
          alert := if isAbortError e then none
            else some ("Error saving handoff:\n" ++ e.msg) }
    | .ok none =>
        { calls := [NetCall.authGetUser], state := st
          alert := some "Please sign in first." }
    | .ok (some _) =>
        match env.insertHandoffErr with
        | some e =>
            { calls := [NetCall.authGetUser, NetCall.insertHandoff], state := st
              alert := if isAbortError e then none
                else some ("Error saving handoff:\n" ++ e.msg) }
        | none =>
            let after := loadHandoffs env st
            { calls := [NetCall.authGetUser, NetCall.insertHandoff] ++ after.calls
              state := after.state
              alert := after.alert }

end Page

namespace FullSys

/-- `type Handoff` of part_000: the denormalized variant, with a stored
`status` string in the closed union open / needs_followup / resolved.
`created_at_ms` is the result of `Date.parse(created_at || "")`, `none`
standing for NaN. -/
structure Handoff where
  id : String
  facility_id : Option String
  unit : Option String
  shift : Option Shift
  title : String
  priority : Priority
  status : String
  created_at_ms : Option Int
  created_by : Option String
deriving DecidableEq

/-- `priorityRank` of part_000: `Critical: 0, High: 1, Normal: 2, Low: 3`
(smaller sorts first). -/
def priorityRank : Priority → Int
  | .Critical => 0
  | .High => 1
  | .Normal => 2
  | .Low => 3

/-- `(isNaN(t) ? 0 : t)`: a NaN parse result is replaced by epoch 0. -/
def toTime : Option Int → Int
  | some t => t
  | none => 0

/-- The comparator of the `sortedHandoffs` memo (part_000 lines 271-295):
resolved last, then unresolved-Critical first, then needs_followup first,
then priority rank, then newest first with NaN replaced by 0. -/
def handoffCompare (a b : Handoff) : Int :=
  let aResolved := a.status == "resolved"
  let bResolved := b.status == "resolved"
  if aResolved != bResolved then (if aResolved then 1 else -1)
  else
    let aCritical := a.priority == Priority.Critical && !aResolved
    let bCritical := b.priority == Priority.Critical && !bResolved
    if aCritical != bCritical then (if aCritical then -1 else 1)
    else
      let aFU := a.status == "needs_followup"
      let bFU := b.status == "needs_followup"
      if aFU != bFU then (if aFU then -1 else 1)
      else
        let pr := priorityRank a.priority - priorityRank b.priority
        if pr ≠ 0 then pr
        else toTime b.created_at_ms - toTime a.created_at_ms

def fullOrder (a b : Handoff) : Prop := handoffCompare a b ≤ 0

instance : DecidableRel fullOrder := fun _ _ => Int.decLe _ _

/-- The `sortedHandoffs` memo: a stable sort of the loaded rows by
`handoffCompare`. -/
def sortedHandoffs (hs : List Handoff) : List Handoff :=
  hs.insertionSort fullOrder

/-- The insert payload shape part_000's `addUpdate` writes to
`handoff_updates` (note: the snapshot column is a plain string here). -/
structure UpdateInsert where
  handoff_id : String
  message : String
  source : UpdateSource
  author_user_id : String
  author_display_name_snapshot : String
deriving DecidableEq

/-- part_000's snapshot rule: the trimmed display name when non-empty,
otherwise the placeholder string `CS Staff`. -/
def snapshotOf (displayName : String) : String :=
  if (jsTrim displayName).length > 0 then jsTrim displayName else "CS Staff"

/-- The insert performed by part_000's `addUpdate`. -/
def addUpdatePayload (displayName sessionUserId selectedId updateText : String) :
    UpdateInsert :=
  { handoff_id := selectedId
    message := jsTrim updateText
    source := UpdateSource.app
    author_user_id := sessionUserId
    author_display_name_snapshot := snapshotOf displayName }

end FullSys

/-! Concrete sample data used by the theorems below. -/

/-- A Critical handoff flagged for follow-up, created at time 5. -/
def hA : Page.Handoff :=
  { id := "a", created_at_ms := some 5, shift := Shift.PM, location := "ED",
    priority := Priority.Critical, summary := "crash cart empty", details := none,
    needs_follow_up := true }

/-- A Low handoff without follow-up, created at time 10. -/
def hB : Page.Handoff :=
  { id := "b", created_at_ms := some 10, shift := Shift.AM, location := "ICU",
    priority := Priority.Low, summary := "routine restock", details := none,
    needs_follow_up := false }

/-- A system sentinel update resolving handoff `a`. -/
def rowA : Page.HandoffUpdate :=
  { id := "u1", created_at_ms := 6, handoff_id := "a", author_user_id := "au",
    author_display_name_snapshot := none, source := UpdateSource.system,
    content := "Marked as resolved" }

/-- A system update whose content matches the sentinel only case-insensitively. -/
def rowUpper : Page.HandoffUpdate :=
  { id := "u2", created_at_ms := 1, handoff_id := "h1", author_user_id := "au",
    author_display_name_snapshot := none, source := UpdateSource.system,
    content := "MARKED AS RESOLVED" }

/-- An environment where the store holds `[hB, hA]` and the sentinel `rowA`. -/
def envC1 : Page.Env :=
  { userResult := Except.ok (some "u1"), handoffRows := Except.ok [hB, hA],
    updateStore := [rowA], resolvedIndexErr := none, insertHandoffErr := none }

/-- An environment with no signed-in user. -/
def envNoAuth : Page.Env :=
  { userResult := Except.ok none, handoffRows := Except.ok [],
    updateStore := [], resolvedIndexErr := none, insertHandoffErr := none }

/-- An environment whose resolved-index lookup fails. -/
def envRIErr : Page.Env :=
  { userResult := Except.ok (some "u1"), handoffRows := Except.ok [hB, hA],
    updateStore := [rowA], resolvedIndexErr := some { msg := "boom", isAbort := false },
    insertHandoffErr := none }

/-- The empty client state. -/
def st0 : Page.ClientState := { handoffs := [], resolvedIds := [] }

/-- A create form with a non-empty summary. -/
def formC5 : Page.CreateForm :=
  { shift := Shift.PM, location := "ED", priority := Priority.Normal,
    summary := "stock out", details := "", needs_follow_up := true }

/-- A create form whose summary trims to empty. -/
def formEmpty : Page.CreateForm :=
  { shift := Shift.PM, location := "ED", priority := Priority.Normal,
    summary := "   ", details := "", needs_follow_up := true }

/-- A handoff that is flagged for follow-up and whose id is in the resolved set
`["r1"]`. -/
def hRfu : Page.Handoff :=
  { id := "r1", created_at_ms := some 7, shift := Shift.NOC, location := "ED",
    priority := Priority.High, summary := "follow me", details := none,
    needs_follow_up := true }

/-- A handoff located at `Central ED`. -/
def edCentral : Page.Handoff :=
  { id := "e1", created_at_ms := some 1, shift := Shift.AM, location := "Central ED",
    priority := Priority.Normal, summary := "s", details := none,
    needs_follow_up := false }

/-- A handoff located at `ed-3`. -/
def edDash : Page.Handoff :=
  { id := "e2", created_at_ms := some 1, shift := Shift.AM, location := "ed-3",
    priority := Priority.Normal, summary := "s", details := none,
    needs_follow_up := false }

/-- A page.tsx handoff with an unparseable `created_at`. -/
def cNaN : Page.Handoff :=
  { id := "n1", created_at_ms := none, shift := Shift.AM, location := "ED",
    priority := Priority.Normal, summary := "s", details := none,
    needs_follow_up := false }

/-- A page.tsx handoff created at time 1000, same tie group as `cNaN`. -/
def cNew : Page.Handoff :=
  { id := "n2", created_at_ms := some 1000, shift := Shift.AM, location := "ED",
    priority := Priority.Normal, summary := "s", details := none,
    needs_follow_up := false }

/-- A part_000 handoff with stored status `resolved`. -/
def fA : FullSys.Handoff :=
  { id := "f1", facility_id := none, unit := none, shift := none, title := "x",
    priority := Priority.Critical, status := "resolved", created_at_ms := some 50,
    created_by := none }

/-- A part_000 handoff with stored status `open`. -/
def fB : FullSys.Handoff :=
  { id := "f2", facility_id := none, unit := none, shift := none, title := "y",
    priority := Priority.Low, status := "open", created_at_ms := some 1,
    created_by := none }

/-- A part_000 handoff with an unparseable `created_at`. -/
def fNaN : FullSys.Handoff :=
  { id := "f3", facility_id := none, unit := none, shift := none, title := "z",
    priority := Priority.Normal, status := "open", created_at_ms := none,
    created_by := none }

/-- A part_000 handoff created at time 5, same tie group as `fNaN`. -/
def fT : FullSys.Handoff :=
  { id := "f4", facility_id := none, unit := none, shift := none, title := "w",
    priority := Priority.Normal, status := "open", created_at_ms := some 5,
    created_by := none }

/-! Cap-overflow scenario for the resolved-index query: 500 sentinel rows for
handoff `busy` (times 500 down to 1) followed by one older sentinel row for
handoff `old` (time 0).  The filter keeps all 501 rows; the newest-500 cap
drops the `old` row. -/

/-- A sentinel row for the given handoff id at the given store timestamp. -/
def capRow (hid : String) (t : Int) : Page.HandoffUpdate :=
  { id := "u", created_at_ms := t, handoff_id := hid, author_user_id := "au",
    author_display_name_snapshot := none, source := UpdateSource.system,
    content := "Marked as resolved" }

def capIds : List String := ["busy", "old"]

def capBusy : List Page.HandoffUpdate :=
  (List.range 500).map (fun (i : Nat) => capRow "busy" ((500 : Int) - i))

def capStore : List Page.HandoffUpdate := capBusy ++ [capRow "old" 0]

lemma capRow_matches (hid : String) (t : Int) (hmem : hid ∈ capIds) :
    Page.resolvedRowMatches capIds (capRow hid t) = true := by
  have h1 : capIds.contains hid = true := List.elem_eq_true_of_mem hmem
  have h2 : Page.matchesSentinel "Marked as resolved" = true := by decide
  simp only [Page.resolvedRowMatches, capRow, h1, h2, beq_self_eq_true,
    Bool.and_self, Bool.and_true]

lemma capStore_filter :
    capStore.filter (Page.resolvedRowMatches capIds) = capStore := by
  rw [List.filter_eq_self]
  intro a ha
  simp only [capStore, capBusy, List.mem_append, List.mem_map,
    List.mem_singleton] at ha
  rcases ha with ⟨i, _, rfl⟩ | rfl
  · exact capRow_matches _ _ (by decide)
  · exact capRow_matches _ _ (by decide)

lemma capStore_sorted : List.Sorted Page.newerFirst capStore := by
  unfold capStore capBusy
  refine List.pairwise_append.mpr ⟨?_, ?_, ?_⟩
  · refine List.pairwise_map.mpr ?_
    refine (List.pairwise_lt_range 500).imp ?_
    intro i j hij
    show Page.newerFirst (capRow "busy" (500 - (i : Int))) (capRow "busy" (500 - (j : Int)))
    unfold Page.newerFirst capRow
    simp only
    omega
  · simp
  · intro a ha b hb
    obtain ⟨i, hi, rfl⟩ := List.mem_map.mp ha
    rw [List.mem_singleton] at hb
    subst hb
    have hi' : i < 500 := List.mem_range.mp hi
    unfold Page.newerFirst capRow
    simp only
    omega

lemma capQuery_eq : Page.resolvedIndexQuery capIds capStore = capBusy := by
  unfold Page.resolvedIndexQuery
  rw [capStore_filter, capStore_sorted.insertionSort_eq]
  show (capBusy ++ [capRow "old" 0]).take 500 = capBusy
  exact List.take_left' (by simp [capBusy])

/-- Claim C1 (amended): in the part_000 `sortedHandoffs` comparator,
unresolved-before-resolved is the first comparator key: a handoff with stored
status `resolved` compares after every handoff whose status is not
`resolved`, regardless of priority, follow-up state or creation time. -/
theorem c1_resolved_sinks_first_key (a b : FullSys.Handoff)
    (ha : a.status = "resolved") (hb : b.status ≠ "resolved") :
    0 < FullSys.handoffCompare a b ∧ FullSys.handoffCompare b a < 0 := by
  have ha' : (a.status == "resolved") = true := by simp [ha]
  have hb' : (b.status == "resolved") = false := by simp [hb]
  constructor <;> simp [FullSys.handoffCompare, ha', hb']

/-- Claim C1 witness: the resolved Critical sample sorts after the open Low
sample under part_000's comparator. -/
theorem c1_resolved_sinks_witness :
    0 < FullSys.handoffCompare fA fB ∧ FullSys.handoffCompare fB fA < 0 :=
  c1_resolved_sinks_first_key fA fB rfl (by decide)

/-- Claim C1 counterexample: in page.tsx, the display ordering does NOT place
every resolved handoff after every unresolved one.  Handoff `a` is derived
resolved (its sentinel row is in the store) yet `loadHandoffs` sorts it ahead
of the unresolved handoff `b`, because the page.tsx comparator never consults
resolved status (its keys are needs_follow_up, priority rank, createdAt). -/
theorem c1_resolved_sinks_cex :
    (Page.loadHandoffs envC1 st0).state.handoffs = [hA, hB] ∧
    (Page.loadHandoffs envC1 st0).state.resolvedIds.contains hA.id = true ∧
    (Page.loadHandoffs envC1 st0).state.resolvedIds.contains hB.id = false := by
  decide

/-- Claim C2 (amended): a handoff among the ids handed to the batched lookup
is derived resolved iff the store holds an update for it with source `system`
and content matching the sentinel prefix case-INSENSITIVELY (Postgres
`ilike`), provided the matching rows fit under the 500-row cap.  In
particular an update with source `app` never makes its handoff resolved. -/
theorem c2_sentinel_iff (ids : List String) (store : List Page.HandoffUpdate)
    (hid : String) (hmem : hid ∈ ids)
    (hle : (store.filter (Page.resolvedRowMatches ids)).length ≤ 500) :
    hid ∈ Page.resolvedIdsOf (Page.resolvedIndexQuery ids store) ↔
      ∃ u ∈ store, u.handoff_id = hid ∧ u.source = UpdateSource.system ∧
        Page.matchesSentinel u.content = true := by
  unfold Page.resolvedIndexQuery Page.resolvedIdsOf
  have hperm :=
    List.perm_insertionSort Page.newerFirst (store.filter (Page.resolvedRowMatches ids))
  rw [List.take_of_length_le (by rw [hperm.length_eq]; exact hle), List.mem_map]
  constructor
  · rintro ⟨r, hr, rfl⟩
    obtain ⟨hrs, hpred⟩ := List.mem_filter.mp (hperm.mem_iff.mp hr)
    simp only [Page.resolvedRowMatches, Bool.and_eq_true, beq_iff_eq] at hpred
    exact ⟨r, hrs, rfl, hpred.1.2, hpred.2⟩
  · rintro ⟨u, hu, hidEq, hsrc, hsent⟩
    refine ⟨u, ?_, hidEq⟩
    rw [hperm.mem_iff, List.mem_filter]
    refine ⟨hu, ?_⟩
    simp only [Page.resolvedRowMatches, Bool.and_eq_true, beq_iff_eq]
    exact ⟨⟨by rw [hidEq]; exact List.elem_eq_true_of_mem hmem, hsrc⟩, hsent⟩

/-- Claim C2 witness: with the single system row whose content is
`MARKED AS RESOLVED`, handoff `h1` is derived resolved, and the
characterization above holds at that store. -/
theorem c2_sentinel_iff_witness :
    "h1" ∈ Page.resolvedIdsOf (Page.resolvedIndexQuery ["h1"] [rowUpper]) ↔
      ∃ u ∈ [rowUpper], u.handoff_id = "h1" ∧ u.source = UpdateSource.system ∧
        Page.matchesSentinel u.content = true :=
  c2_sentinel_iff ["h1"] [rowUpper] "h1" (by decide) (by decide)

/-- Claim C2 counterexample: the sentinel match is not case-sensitive.  A
system update whose content is `MARKED AS RESOLVED` fails the case-sensitive
prefix test of the claim, yet the code derives its handoff as resolved. -/
theorem c2_sentinel_case_cex :
    "h1" ∈ Page.resolvedIdsOf (Page.resolvedIndexQuery ["h1"] [rowUpper]) ∧
    ("Marked as resolved").data.isPrefixOf rowUpper.content.data = false ∧
    rowUpper.source = UpdateSource.system := by
  decide

/-- Claim C3: among handoffs (the page.tsx comparator never reads resolved
status, so in particular among unresolved ones), the display comparator
applies successive tie-breaks, first non-zero winning: needs_follow_up true
before false, then priority rank descending with Critical(4) > High(3) >
Normal(2) > Low(1), then createdAt descending (newest first). -/
theorem c3_unresolved_tiebreaks (a b : Page.Handoff) :
    (a.needs_follow_up = true → b.needs_follow_up = false →
      Page.sortCompare a b < 0 ∧ 0 < Page.sortCompare b a) ∧
    (a.needs_follow_up = b.needs_follow_up →
      Page.rank b.priority < Page.rank a.priority → Page.sortCompare a b < 0) ∧
    (∀ x y : Int, a.needs_follow_up = b.needs_follow_up → a.priority = b.priority →
      a.created_at_ms = some x → b.created_at_ms = some y → y < x →
      Page.sortCompare a b < 0) ∧
    (Page.rank Priority.Critical = 4 ∧ Page.rank Priority.High = 3 ∧
      Page.rank Priority.Normal = 2 ∧ Page.rank Priority.Low = 1) := by
  refine ⟨?_, ?_, ?_, by decide⟩
  · intro hafu hbfu
    constructor <;> simp [Page.sortCompare, Page.handoffCompare, hafu, hbfu]
  · intro hfu hpr
    have h0 : ((if b.needs_follow_up then (1 : Int) else 0) -
        (if a.needs_follow_up then (1 : Int) else 0)) = 0 := by
      rw [hfu, sub_self]
    have hne : Page.rank b.priority - Page.rank a.priority ≠ 0 := by omega
    simp [Page.sortCompare, Page.handoffCompare, h0, hne]
    omega
  · intro x y hfu hpr hax hbx hlt
    simp [Page.sortCompare, Page.handoffCompare, hfu, hpr, hax, hbx, Page.jsSub]
    omega

/-- Claim C3 witness: the follow-up Critical sample sorts before the
no-follow-up Low sample, in both argument orders. -/
theorem c3_unresolved_tiebreaks_witness :
    Page.sortCompare hA hB < 0 ∧ 0 < Page.sortCompare hB hA :=
  (c3_unresolved_tiebreaks hA hB).1 rfl rfl

/-- Claim C4: with an empty location query, the enabled follow-up filter
keeps a handoff iff it is not in the derived resolved set and has
needs_follow_up set; the disabled filter passes every handoff. -/
theorem c4_followup_filter (locF : String) (resolvedIds : List String)
    (h : Page.Handoff) (htrim : trimData locF.data = []) :
    Page.filteredKeep true locF resolvedIds h =
      (!(resolvedIds.contains h.id) && h.needs_follow_up) ∧
    Page.filteredKeep false locF resolvedIds h = true := by
  constructor
  · cases hc : resolvedIds.contains h.id <;> cases hf : h.needs_follow_up <;>
      simp [Page.filteredKeep, htrim, hc, hf] <;> simpa using hc
  · simp [Page.filteredKeep, htrim]

/-- Claim C4 witness: the resolved handoff `hRfu` (id `r1`, in the resolved
set, needs_follow_up true) is excluded by the enabled filter and kept by the
disabled one. -/
theorem c4_followup_filter_witness :
    (Page.filteredKeep true "" ["r1"] hRfu =
      (!((["r1"] : List String).contains hRfu.id) && hRfu.needs_follow_up)) ∧
    Page.filteredKeep false "" ["r1"] hRfu = true :=
  c4_followup_filter "" ["r1"] hRfu (by decide)

/-- Claim C5 (amended): a create attempt whose trimmed summary is empty
performs zero boundary calls, raises the validation alert and leaves the
state unchanged; an unauthenticated attempt performs exactly the auth user
lookup (one boundary call, no store read or write), raises the sign-in alert
and leaves the state unchanged. -/
theorem c5_create_validation (env : Page.Env) (st : Page.ClientState)
    (form : Page.CreateForm) :
    (jsTrim form.summary = "" →
      Page.createHandoff env st form =
        { calls := [], state := st, alert := some "Summary is required." }) ∧
    (jsTrim form.summary ≠ "" → env.userResult = Except.ok none →
      Page.createHandoff env st form =
        { calls := [Page.NetCall.authGetUser], state := st
          alert := some "Please sign in first." }) := by
  constructor
  · intro hs
    simp [Page.createHandoff, hs]
  · intro hs hu
    have hs' : (jsTrim form.summary == "") = false := by simpa using hs
    simp [Page.createHandoff, hs', hu]

/-- Claim C5 witness: the whitespace-summary form short-circuits with no
calls; the non-empty form under the signed-out environment stops after the
auth lookup. -/
theorem c5_create_validation_witness :
    (Page.createHandoff envNoAuth st0 formEmpty =
      { calls := [], state := st0, alert := some "Summary is required." }) ∧
    (Page.createHandoff envNoAuth st0 formC5 =
      { calls := [Page.NetCall.authGetUser], state := st0
        alert := some "Please sign in first." }) :=
  ⟨(c5_create_validation envNoAuth st0 formEmpty).1 (by decide),
   (c5_create_validation envNoAuth st0 formC5).2 (by decide) rfl⟩

/-- Claim C5 counterexample: an unauthenticated create attempt is not a
zero-network-call no-op: it performs the `auth.getUser` boundary call (and
nothing else) before refusing. -/
theorem c5_create_noauth_cex :
    (Page.createHandoff envNoAuth st0 formC5).calls = [Page.NetCall.authGetUser] ∧
    (Page.createHandoff envNoAuth st0 formC5).calls ≠ [] ∧
    (Page.createHandoff envNoAuth st0 formC5).alert = some "Please sign in first." ∧
    (Page.createHandoff envNoAuth st0 formC5).state = st0 := by
  decide

/-- Claim C6: when the batched resolved-index lookup fails with a store
error, the derivation degrades to the empty resolved set with no blocking
alert, and `loadHandoffs` still leaves the sorted rows rendered with no
alert. -/
theorem c6_degraded_resolved_index (env : Page.Env) (e : Page.Err)
    (ids : List String) (herr : env.resolvedIndexErr = some e) :
    (Page.loadResolvedIndex env ids).2.1 = [] ∧
    (Page.loadResolvedIndex env ids).2.2 = none ∧
    (∀ (st : Page.ClientState) (u : String) (data : List Page.Handoff),
      env.userResult = Except.ok (some u) → env.handoffRows = Except.ok data →
      (Page.loadHandoffs env st).state.handoffs = Page.sortHandoffs data ∧
      (Page.loadHandoffs env st).alert = none) := by
  refine ⟨?_, ?_, ?_⟩
  · by_cases hid : ids.isEmpty <;> simp [Page.loadResolvedIndex, hid, herr]
  · by_cases hid : ids.isEmpty <;> simp [Page.loadResolvedIndex, hid, herr]
  · intro st u data hu hd
    by_cases hempty : ((Page.sortHandoffs data).map (·.id)).isEmpty <;>
      simp [Page.loadHandoffs, hu, hd, Page.loadResolvedIndex, herr, hempty]

/-- Claim C6 witness: with the failing environment `envRIErr`, the derived
set is empty, nothing is alerted, and the sorted rows are still shown. -/
theorem c6_degraded_resolved_index_witness :
    (Page.loadResolvedIndex envRIErr ["a"]).2.1 = [] ∧
    (Page.loadResolvedIndex envRIErr ["a"]).2.2 = none ∧
    ((Page.loadHandoffs envRIErr st0).state.handoffs = Page.sortHandoffs [hB, hA] ∧
      (Page.loadHandoffs envRIErr st0).alert = none) := by
  have h := c6_degraded_resolved_index envRIErr
    { msg := "boom", isAbort := false } ["a"] rfl
  exact ⟨h.1, h.2.1, h.2.2 st0 "u1" [hB, hA] rfl rfl⟩

/-- Claim C7: the resolved-status derivation performs one batched lookup
carrying all the handoff ids at once; the query returns only rows matching
the system-source sentinel filter over those ids; the result is capped at
500 rows; and in the concrete over-cap scenario (`capStore`, 501 sentinel
rows) the handoff `old`, though it has a matching sentinel row, is absent
from the derived resolved set — the accepted approximation. -/
theorem c7_batched_capped :
    (∀ (i : String) (rest : List String) (env : Page.Env),
      (Page.loadResolvedIndex env (i :: rest)).1 =
        [Page.NetCall.selectResolvedIndex (i :: rest)]) ∧
    (∀ (ids : List String) (store : List Page.HandoffUpdate),
      (Page.resolvedIndexQuery ids store).length ≤ 500) ∧
    (∀ (ids : List String) (store : List Page.HandoffUpdate),
      (Page.resolvedIndexQuery ids store).all (Page.resolvedRowMatches ids) = true) ∧
    ("old" ∈ capIds ∧ capRow "old" 0 ∈ capStore ∧
      Page.resolvedRowMatches capIds (capRow "old" 0) = true ∧
      500 < (capStore.filter (Page.resolvedRowMatches capIds)).length ∧
      "old" ∉ Page.resolvedIdsOf (Page.resolvedIndexQuery capIds capStore)) := by
  refine ⟨?_, ?_, ?_, by decide, ?_, capRow_matches _ _ (by decide), ?_, ?_⟩
  · intro i rest env
    cases herr : env.resolvedIndexErr <;> simp [Page.loadResolvedIndex, herr]
  · intro ids store
    unfold Page.resolvedIndexQuery
    rw [List.length_take]
    exact Nat.min_le_left _ _
  · intro ids store
    unfold Page.resolvedIndexQuery
    rw [List.all_eq_true]
    intro r hr
    have h1 : r ∈ (store.filter (Page.resolvedRowMatches ids)).insertionSort
        Page.newerFirst := List.mem_of_mem_take hr
    exact List.of_mem_filter ((List.perm_insertionSort Page.newerFirst _).mem_iff.mp h1)
  · show capRow "old" 0 ∈ capBusy ++ [capRow "old" 0]
    exact List.mem_append_right _ (List.mem_singleton_self _)
  · rw [capStore_filter]
    simp [capStore, capBusy]
  · rw [capQuery_eq]
    intro hmem
    simp only [Page.resolvedIdsOf, capBusy, List.mem_map] at hmem
    obtain ⟨r, ⟨i, _, rfl⟩, hbad⟩ := hmem
    have hb : ("busy" : String) = "old" := hbad
    exact absurd hb (by decide)

/-- Claim C8: with the follow-up filter off, a handoff passes iff the
trimmed lower-cased query is empty or is a substring of the lower-cased
location; a whitespace-only query passes everything; and the query `ed`
matches both `Central ED` and `ed-3`. -/
theorem c8_location_filter :
    (∀ (locF : String) (rs : List String) (h : Page.Handoff),
      Page.filteredKeep false locF rs h = true ↔
        ((trimData locF.data).map Char.toLower = [] ∨
          (trimData locF.data).map Char.toLower <:+: jsToLower h.location)) ∧
    (∀ (rs : List String) (h : Page.Handoff),
      Page.filteredKeep false "   " rs h = true) ∧
    (∀ rs : List String, Page.filteredKeep false "ed" rs edCentral = true) ∧
    (∀ rs : List String, Page.filteredKeep false "ed" rs edDash = true) := by
  refine ⟨?_, ?_, ?_, ?_⟩
  · intro locF rs h
    by_cases hq : (trimData locF.data).map Char.toLower = [] <;>
      simp [Page.filteredKeep, Page.jsIncludes, hq]
  · intro rs h
    have ht : trimData ("   ").data = [] := by decide
    simp [Page.filteredKeep, ht]
  · intro rs
    simp [Page.filteredKeep]
    decide
  · intro rs
    simp [Page.filteredKeep]
    decide

/-- Claim C9 (amended): part_000's comparator substitutes epoch 0 for a
missing/unparseable createdAt (so, all earlier keys tied, such a handoff
sorts after any handoff with a positive timestamp) and, being a total
function, never throws.  In page.tsx the date key of such a handoff is NaN
instead: the sort treats the comparison as 0, so the handoff ties with its
whole tie group in both argument orders rather than sorting last. -/
theorem c9_unparseable_created_at (a b : FullSys.Handoff) :
    (a.created_at_ms = none →
      FullSys.handoffCompare a b =
        FullSys.handoffCompare { a with created_at_ms := some 0 } b) ∧
    (∀ t : Int, a.created_at_ms = none → b.created_at_ms = some t → 0 < t →
      a.status = b.status → a.priority = b.priority →
      0 < FullSys.handoffCompare a b) ∧
    (∀ a2 b2 : Page.Handoff, a2.created_at_ms = none →
      a2.needs_follow_up = b2.needs_follow_up → a2.priority = b2.priority →
      Page.sortCompare a2 b2 = 0 ∧ Page.sortCompare b2 a2 = 0) := by
  refine ⟨?_, ?_, ?_⟩
  · intro ha
    simp [FullSys.handoffCompare, FullSys.toTime, ha]
  · intro t ha hb ht hst hpr
    simp [FullSys.handoffCompare, FullSys.toTime, ha, hb, hst, hpr]
    omega
  · intro a2 b2 ha hfu hpr
    constructor <;>
      cases hb2 : b2.created_at_ms <;>
        simp [Page.sortCompare, Page.handoffCompare, Page.jsSub, ha, hfu, hpr, hb2]

/-- Claim C9 witness: the unparseable part_000 sample compares as if created
at epoch 0 and sorts after its tied, later-created peer; the unparseable
page.tsx sample merely ties with its peer. -/
theorem c9_unparseable_created_at_witness :
    (FullSys.handoffCompare fNaN fT =
      FullSys.handoffCompare { fNaN with created_at_ms := some 0 } fT) ∧
    0 < FullSys.handoffCompare fNaN fT ∧
    (Page.sortCompare cNaN cNew = 0 ∧ Page.sortCompare cNew cNaN = 0) := by
  have h := c9_unparseable_created_at fNaN fT
  exact ⟨h.1 rfl, h.2.1 5 rfl rfl (by decide) rfl rfl, h.2.2 cNaN cNew rfl rfl rfl⟩

/-- Claim C9 counterexample: in page.tsx the comparator does NOT treat an
unparseable createdAt as epoch-earliest.  Against a tied peer created at
time 1000, the comparison is NaN, which the sort reads as 0 (a tie), not as
a positive value that would sink the unparseable handoff to the end of its
tie group. -/
theorem c9_nan_tie_cex :
    Page.handoffCompare cNaN cNew = none ∧
    Page.sortCompare cNaN cNew = 0 ∧
    Page.sortCompare cNew cNaN = 0 ∧
    ¬ 0 < Page.sortCompare cNaN cNew := by
  decide

/-- Claim C10 (amended): in the page.tsx variants, every append-update and
mark-resolved insert stores as snapshot exactly `displayName.trim() || null`:
the trimmed display name, and null — never the empty string — when the
trimmed name is empty.  (part_000's append-update instead substitutes the
placeholder `CS Staff` for a blank name; see the counterexample.) -/
theorem c10_snapshot_trimmed
    (displayName userId handoffId selectedId newUpdate : String) :
    ((Page.markResolvedPayload displayName userId handoffId).author_display_name_snapshot
      = Page.snapshotOf displayName) ∧
    ((Page.addUpdatePayload displayName userId selectedId newUpdate).author_display_name_snapshot
      = Page.snapshotOf displayName) ∧
    (jsTrim displayName = "" → Page.snapshotOf displayName = none) ∧
    (jsTrim displayName ≠ "" →
      Page.snapshotOf displayName = some (jsTrim displayName)) ∧
    Page.snapshotOf displayName ≠ some "" := by
  refine ⟨rfl, rfl, ?_, ?_, ?_⟩
  · intro hts
    simp [Page.snapshotOf, hts]
  · intro hts
    simp [Page.snapshotOf, hts]
  · intro hbad
    by_cases hts : jsTrim displayName = "" <;>
      simp [Page.snapshotOf, hts] at hbad

/-- Claim C10 witness: a padded name is stored trimmed; a whitespace-only
name is stored as null; the stored snapshot is never the empty string. -/
theorem c10_snapshot_trimmed_witness :
    ((Page.markResolvedPayload " JD " "u1" "h1").author_display_name_snapshot
      = Page.snapshotOf " JD ") ∧
    Page.snapshotOf " JD " = some (jsTrim " JD ") ∧
    Page.snapshotOf "   " = none ∧
    Page.snapshotOf " JD " ≠ some "" := by
  have h1 := c10_snapshot_trimmed " JD " "u1" "h1" "h1" "note"
  have h2 := c10_snapshot_trimmed "   " "u1" "h1" "h1" "note"
  exact ⟨h1.1, h1.2.2.2.1 (by decide), h2.2.2.1 (by decide), h1.2.2.2.2⟩

/-- Claim C10 counterexample: part_000's append-update write with a blank
display name stores the placeholder `CS Staff` as the snapshot — neither the
trimmed name (empty) nor null. -/
theorem c10_snapshot_placeholder_cex :
    (FullSys.addUpdatePayload "" "u1" "h1" "note").author_display_name_snapshot
      = "CS Staff" ∧
    jsTrim "" = "" ∧ ("CS Staff" : String) ≠ "" := by
  decide

end CentralSupply
